import Mathlib

/-!
# Verification of the react-ui-plugins view-composition helper

A shallow embedding of the plugin-rendering helper: plugin descriptors
(optional `name`, optional `transformData`, required `render`), identity
resolution (`getPluginName` / `getPluginPrefix`), the two historical
refresh variants (`initializePlugins` storing eager data vs. storing the
descriptor), and the render orchestration (`renderPlugins` with its
lookup-or-empty-record default, props spread, and positional fragment
keys).

JavaScript plain objects used as string-keyed maps are embedded as
association lists where assignment prepends; `lookupRec` returns the
first (i.e. most recent) binding, which matches last-assignment-wins
object semantics.  Record values (the data handed to `render`) are also
association lists, and the object-spread `{...a, ...b}` is embedded by
`mergeRec`, which is faithful to JavaScript key ordering (keys of `a`
first, collided values taken from `b`, then the new keys of `b`).
-/

set_option autoImplicit false

namespace ReactUIPlugins

universe u v

/-- A JavaScript record (plain object) with values of type `α`:
an association list, later assignments prepended. -/
abbrev Rec (α : Type u) : Type u := List (String × α)

/-- `BasePluginData` from `uiPlugin.utils.ts`: `Record<string, T>`, the
derived-data mapping from plugin identity to a stored value (a data
record in the eager variant, a plugin descriptor in the lazy variant). -/
abbrev BasePluginData (β : Type u) : Type u := List (String × β)

/-- First-match lookup on an association list; with prepending writes this
is exactly JavaScript property lookup on an object built by assignments. -/
def lookupRec {α : Type u} (k : String) : List (String × α) → Option α
  | [] => none
  | (k', v) :: rest => if k' = k then some v else lookupRec k rest

/-- JavaScript property assignment `data[k] = v` on an object embedded as
an association list: prepend, so that `lookupRec` sees the newest binding. -/
def setKey {α : Type u} (m : List (String × α)) (k : String) (v : α) :
    List (String × α) :=
  (k, v) :: m

/-- The object spread `{...a, ...b}`: keys of `a` in order (with the value
from `b` on a collision), then the keys of `b` not present in `a`. -/
def mergeRec {α : Type u} (a b : Rec α) : Rec α :=
  a.map (fun kv => (kv.1, (lookupRec kv.1 b).getD kv.2)) ++
    b.filter (fun kv => (lookupRec kv.1 a).isNone)

/-- `UIPlugin` from `uiPlugin.utils.ts`: optional `name`, optional
`transformData` producing a data record, required `render` from a data
record to a UI fragment of type `ω`.  A JavaScript string that may be
absent is `Option String` (`none` = the field is `undefined`). -/
structure UIPlugin (α : Type u) (ω : Type v) where
  name : Option String
  transformData : Option (Unit → Rec α)
  render : Rec α → ω

/-- `getPluginPrefix` from `uiPlugin.utils.ts`:
`` `${PLUGIN_PREFIX}-${index}` `` with `PLUGIN_PREFIX = "ui-plugin"`. -/
def getPluginPrefix (index : Nat) : String :=
  "ui-plugin" ++ "-" ++ toString index

/-- The JavaScript truthiness fallback `s || d` for a possibly-absent
string: the only falsy string is `""`, and `undefined` is falsy. -/
def strOrElse (s : Option String) (d : String) : String :=
  match s with
  | some v => if v = "" then d else v
  | none => d

/-- `getPluginName` from `uiPlugin.utils.ts`:
`plugin?.name || getPluginPrefix(index)`.  The inline key expression
`pluginName || getPluginPrefix(index)` used by the eager
`initializePlugins` variant is the same expression. -/
def getPluginName {α : Type u} {ω : Type v} (plugin : UIPlugin α ω)
    (index : Nat) : String :=
  strOrElse plugin.name (getPluginPrefix index)

/-- `createUIPlugin` as in the earlier variant of `uiPlugin.utils.ts` and
in `unnamed/part_000`: destructures `{ transformData, render }` and
returns `{ transformData, render }`, so the returned object has no
`name` property. -/
def createUIPluginV1 {α : Type u} {ω : Type v} (d : UIPlugin α ω) :
    UIPlugin α ω :=
  { name := none, transformData := d.transformData, render := d.render }

/-- `createUIPlugin` as in the later variant of `uiPlugin.utils.ts`:
destructures `{ name, transformData, render }` and returns all three. -/
def createUIPluginV2 {α : Type u} {ω : Type v} (d : UIPlugin α ω) :
    UIPlugin α ω :=
  { name := d.name, transformData := d.transformData, render := d.render }

/-- The loop of the eager `initializePlugins` from `unnamed/part_001`
(also inlined in the `useEffect` of the second `index.tsx` variant): for
each plugin, if `transformData` is a function,
`data[plugin?.name || getPluginPrefix(index)] = plugin.transformData()`. -/
def initializePluginsEagerAux {α : Type u} {ω : Type v} :
    List (UIPlugin α ω) → Nat → BasePluginData (Rec α) →
      BasePluginData (Rec α)
  | [], _, data => data
  | plugin :: rest, index, data =>
    match plugin.transformData with
    | some f =>
      initializePluginsEagerAux rest (index + 1)
        (setKey data (getPluginName plugin index) (f ()))
    | none => initializePluginsEagerAux rest (index + 1) data

/-- The eager `initializePlugins` (`unnamed/part_001`): builds a fresh
mapping from resolved identity to the already-computed
`transformData()` result. -/
def initializePluginsEager {α : Type u} {ω : Type v}
    (plugins : List (UIPlugin α ω)) : BasePluginData (Rec α) :=
  initializePluginsEagerAux plugins 0 []

/-- The loop of the descriptor-storing `initializePlugins` from the later
`uiPlugin.utils.ts`: `data[getPluginName(plugin, index)] = plugin` for
each plugin whose `transformData` is a function. -/
def initializePluginsDescrAux {α : Type u} {ω : Type v} :
    List (UIPlugin α ω) → Nat → BasePluginData (UIPlugin α ω) →
      BasePluginData (UIPlugin α ω)
  | [], _, data => data
  | plugin :: rest, index, data =>
    match plugin.transformData with
    | some _ =>
      initializePluginsDescrAux rest (index + 1)
        (setKey data (getPluginName plugin index) plugin)
    | none => initializePluginsDescrAux rest (index + 1) data

/-- The descriptor-storing `initializePlugins` (later
`uiPlugin.utils.ts`): maps each resolved identity to the plugin
descriptor itself. -/
def initializePluginsDescr {α : Type u} {ω : Type v}
    (plugins : List (UIPlugin α ω)) : BasePluginData (UIPlugin α ω) :=
  initializePluginsDescrAux plugins 0 []

/-- `renderPluginData` from the first `index.tsx` variant:
`plugin.render(pluginData[getPluginName(plugin, index)] || {})`.  The
second variant's inline `pageData[plugin?.name || getPluginPrefix(index)]
|| {}` is the same computation. -/
def renderPluginDataEager {α : Type u} {ω : Type v}
    (pluginData : BasePluginData (Rec α)) (plugin : UIPlugin α ω)
    (index : Nat) : ω :=
  plugin.render ((lookupRec (getPluginName plugin index) pluginData).getD [])

/-- One rendered fragment: the `React.Fragment` wrapper's reconciliation
`key` together with the rendered node. -/
structure Fragment (ω : Type v) where
  key : String
  node : ω
deriving DecidableEq

/-- The `plugins.map((plugin, index) => <React.Fragment
key={getPluginPrefix(index)}>{renderPluginData(plugin, index)}
</React.Fragment>)` loop of `renderPlugins`, carrying the running index. -/
def renderPluginsEagerAux {α : Type u} {ω : Type v}
    (pluginData : BasePluginData (Rec α)) :
    List (UIPlugin α ω) → Nat → List (Fragment ω)
  | [], _ => []
  | plugin :: rest, index =>
    ⟨getPluginPrefix index, renderPluginDataEager pluginData plugin index⟩ ::
      renderPluginsEagerAux pluginData rest (index + 1)

/-- `renderPlugins` of the first and second `index.tsx` variants, reading
one snapshot `pluginData` of the derived-data mapping. -/
def renderPluginsEager {α : Type u} {ω : Type v}
    (pluginData : BasePluginData (Rec α)) (plugins : List (UIPlugin α ω)) :
    List (Fragment ω) :=
  renderPluginsEagerAux pluginData plugins 0

/-- `renderPluginData` from the hook variant in `index.spec.tsx`:
looks up the cached descriptor (`pluginName` is always truthy, so the
ternary takes the cache lookup), computes
`pluginObj?.transformData()`, spreads `{...pluginData, ...props}` and
calls `plugin.render`.  When the cache does hold a descriptor but that
descriptor has no `transformData`, the JavaScript call
`pluginObj?.transformData()` throws a `TypeError`; that crash is the
`none` result. -/
def renderPluginDataCache {α : Type u} {ω : Type v}
    (pluginCache : BasePluginData (UIPlugin α ω)) (plugin : UIPlugin α ω)
    (index : Nat) (props : Option (Rec α)) : Option ω :=
  match lookupRec (getPluginName plugin index) pluginCache with
  | none => some (plugin.render (mergeRec [] (props.getD [])))
  | some pluginObj =>
    match pluginObj.transformData with
    | some f => some (plugin.render (mergeRec (f ()) (props.getD [])))
    | none => none

/-- The fragment-building loop of the `index.spec.tsx` variant's
`renderPlugins`, again keyed by `getPluginPrefix(index)`; a thrown
`TypeError` from any `renderPluginData` aborts the whole pass (`none`). -/
def renderPluginsCacheAux {α : Type u} {ω : Type v}
    (pluginCache : BasePluginData (UIPlugin α ω)) (props : Option (Rec α)) :
    List (UIPlugin α ω) → Nat → Option (List (Fragment ω))
  | [], _ => some []
  | plugin :: rest, index =>
    match renderPluginDataCache pluginCache plugin index props with
    | none => none
    | some node =>
      match renderPluginsCacheAux pluginCache props rest (index + 1) with
      | none => none
      | some fragments => some (⟨getPluginPrefix index, node⟩ :: fragments)

/-- `renderPlugins(props?)` of the `index.spec.tsx` variant. -/
def renderPluginsCache {α : Type u} {ω : Type v}
    (pluginCache : BasePluginData (UIPlugin α ω))
    (plugins : List (UIPlugin α ω)) (props : Option (Rec α)) :
    Option (List (Fragment ω)) :=
  renderPluginsCacheAux pluginCache props plugins 0

/-! ## Refresh with exceptions

For the error-propagation claims, `transformData` is embedded with an
explicit exception effect: a call either returns a data record or throws
(`Except.error`), as nothing in the refresh loop catches. -/

/-- A plugin whose `transformData` may throw. -/
structure UIPluginE (α : Type u) (ω : Type v) where
  name : Option String
  transformData : Option (Unit → Except String (Rec α))
  render : Rec α → ω

/-- Identity resolution for throwing plugins — the same
`plugin?.name || getPluginPrefix(index)` expression. -/
def getPluginNameE {α : Type u} {ω : Type v} (plugin : UIPluginE α ω)
    (index : Nat) : String :=
  strOrElse plugin.name (getPluginPrefix index)

/-- The eager refresh loop with throwing `transformData`: a throw aborts
the `forEach` immediately — later plugins are not visited and the
locally built `data` object is abandoned. -/
def initializePluginsEagerEAux {α : Type u} {ω : Type v} :
    List (UIPluginE α ω) → Nat → BasePluginData (Rec α) →
      Except String (BasePluginData (Rec α))
  | [], _, data => Except.ok data
  | plugin :: rest, index, data =>
    match plugin.transformData with
    | some f =>
      match f () with
      | Except.ok v =>
        initializePluginsEagerEAux rest (index + 1)
          (setKey data (getPluginNameE plugin index) v)
      | Except.error e => Except.error e
    | none => initializePluginsEagerEAux rest (index + 1) data

/-- The eager `initializePlugins` with throwing `transformData`. -/
def initializePluginsEagerE {α : Type u} {ω : Type v}
    (plugins : List (UIPluginE α ω)) :
    Except String (BasePluginData (Rec α)) :=
  initializePluginsEagerEAux plugins 0 []

/-- The state of one mounted consumer session that matters to rendering:
the published derived-data mapping (`pageData` in `index.tsx`,
initialized to `{}` by `useState`). -/
structure SessionState (α : Type u) where
  pageData : BasePluginData (Rec α)

/-- The `useEffect` refresh body: build the whole mapping, then publish
it in a single `setPageData(data)` call at the end.  A throw anywhere in
the build escapes the effect before `setPageData` runs. -/
def runRefresh {α : Type u} {ω : Type v} (plugins : List (UIPluginE α ω)) :
    Except String (SessionState α) :=
  match initializePluginsEagerE (ω := ω) plugins with
  | Except.ok data => Except.ok ⟨data⟩
  | Except.error e => Except.error e

/-- The session state observable at render time after the effect ran:
the newly published state on success; the previous state when the effect
threw, since the only state write (`setPageData`) was never reached. -/
def observedAfterRefresh {α : Type u} {ω : Type v}
    (plugins : List (UIPluginE α ω)) (s : SessionState α) : SessionState α :=
  match runRefresh (ω := ω) plugins with
  | Except.ok s' => s'
  | Except.error _ => s

/-! ## Characterizations used in theorem statements -/

/-- The value the last plugin (in sequence order, starting at position
`index`) with resolved identity `k` and a defined `transformData` would
store — the "later assignments overwrite earlier ones" reading. -/
def lastTransformValue {α : Type u} {ω : Type v} :
    List (UIPlugin α ω) → Nat → String → Option (Rec α)
  | [], _, _ => none
  | plugin :: rest, index, k =>
    (lastTransformValue rest (index + 1) k).or
      (match plugin.transformData with
       | some f => if getPluginName plugin index = k then some (f ()) else none
       | none => none)

/-- Whether some plugin (from position `index` on) has a defined
`transformData` and resolves to identity `k`. -/
def anyTransformNamed {α : Type u} {ω : Type v} :
    List (UIPlugin α ω) → Nat → String → Bool
  | [], _, _ => false
  | plugin :: rest, index, k =>
    (plugin.transformData.isSome && decide (getPluginName plugin index = k)) ||
      anyTransformNamed rest (index + 1) k

/-- Relation between what the eager mapping and the descriptor mapping
store at one identity: both absent, or the descriptor is present with a
defined `transformData` whose (pure) result is the eagerly stored value. -/
def StoreRel {α : Type u} {ω : Type v} :
    Option (Rec α) → Option (UIPlugin α ω) → Prop
  | none, none => True
  | some d, some q => ∃ f, q.transformData = some f ∧ d = f ()
  | some _, none => False
  | none, some _ => False

/-! ## Concrete plugins used as evaluation inputs -/

/-- A concrete render function: shows the `"v"` field of a `Nat` record. -/
def exRender (d : Rec Nat) : String :=
  "v:" ++ toString ((lookupRec "v" d).getD 0)

/-- A named plugin with `transformData` producing `{v: 1}`. -/
def exPluginA : UIPlugin Nat String :=
  ⟨some "A", some (fun _ => [("v", 1)]), exRender⟩

/-- A second plugin also named `"A"`, producing `{v: 3}`. -/
def exPluginA2 : UIPlugin Nat String :=
  ⟨some "A", some (fun _ => [("v", 3)]), exRender⟩

/-- A plugin named `"A"` with no `transformData`. -/
def exPluginNoTd : UIPlugin Nat String :=
  ⟨some "A", none, exRender⟩

/-- An anonymous plugin with `transformData` producing `{v: 2}`. -/
def exPluginNoName : UIPlugin Nat String :=
  ⟨none, some (fun _ => [("v", 2)]), exRender⟩

/-- A plugin named `"B"` with no `transformData`. -/
def exPluginB : UIPlugin Nat String :=
  ⟨some "B", none, exRender⟩

/-- A render function over string records showing `title` and `body`. -/
def exRenderS (d : Rec String) : String :=
  (lookupRec "title" d).getD "" ++ "|" ++ (lookupRec "body" d).getD ""

/-- A plugin whose derived data is `{title: "Y", body: "Z"}`. -/
def exPluginTitle : UIPlugin String String :=
  ⟨some "P", some (fun _ => [("title", "Y"), ("body", "Z")]), exRenderS⟩

/-- A throwing-model plugin whose `transformData` returns `{v: 1}`. -/
def exEPluginOk : UIPluginE Nat String :=
  ⟨some "A", some (fun _ => Except.ok [("v", 1)]), exRender⟩

/-- A throwing-model plugin whose `transformData` throws `"boom"`. -/
def exEPluginBoom : UIPluginE Nat String :=
  ⟨some "B", some (fun _ => Except.error "boom"), exRender⟩

/-- A throwing-model plugin whose `transformData` returns `{v: 3}`. -/
def exEPluginOk2 : UIPluginE Nat String :=
  ⟨some "C", some (fun _ => Except.ok [("v", 3)]), exRender⟩

/-- A session state holding a nonempty previously published mapping. -/
def exOldState : SessionState Nat :=
  ⟨[("old", [("v", 9)])]⟩

/-! ## Association-list lemmas -/

@[simp] theorem lookupRec_nil {α : Type u} (k : String) :
    lookupRec k ([] : List (String × α)) = none := rfl

@[simp] theorem lookupRec_cons {α : Type u} (k k' : String) (v : α)
    (rest : List (String × α)) :
    lookupRec k ((k', v) :: rest) =
      if k' = k then some v else lookupRec k rest := rfl

theorem lookupRec_append {α : Type u} (k : String) (l₁ l₂ : List (String × α)) :
    lookupRec k (l₁ ++ l₂) = (lookupRec k l₁).or (lookupRec k l₂) := by
  induction l₁ with
  | nil => simp
  | cons kv rest ih =>
    obtain ⟨k', v⟩ := kv
    by_cases h : k' = k <;> simp [h, ih]

theorem lookupRec_mapVal {α : Type u} {β : Type v} (k : String)
    (g : String → α → β) (a : List (String × α)) :
    lookupRec k (a.map (fun kv => (kv.1, g kv.1 kv.2))) =
      (lookupRec k a).map (g k) := by
  induction a with
  | nil => simp
  | cons kv rest ih =>
    obtain ⟨k', v⟩ := kv
    by_cases h : k' = k
    · subst h; simp
    · simp [h, ih]

theorem lookupRec_filter_of_none {α : Type u} (k : String)
    (a b : Rec α) (h : lookupRec k a = none) :
    lookupRec k (b.filter (fun kv => (lookupRec kv.1 a).isNone)) =
      lookupRec k b := by
  induction b with
  | nil => simp
  | cons kv rest ih =>
    obtain ⟨k', v⟩ := kv
    by_cases hk : k' = k
    · subst hk
      simp [List.filter_cons, h, ih]
    · by_cases hp : (lookupRec k' a).isNone <;>
        simp [List.filter_cons, hp, hk, ih]

/-- Lookup in a spread `{...a, ...b}`: the value from `b` when present,
else the value from `a` — override wins on every key collision. -/
theorem lookupRec_mergeRec {α : Type u} (k : String) (a b : Rec α) :
    lookupRec k (mergeRec a b) = (lookupRec k b).or (lookupRec k a) := by
  unfold mergeRec
  rw [lookupRec_append, lookupRec_mapVal k (fun k' v => (lookupRec k' b).getD v) a]
  cases ha : lookupRec k a with
  | none =>
    rw [lookupRec_filter_of_none k a b ha]
    cases lookupRec k b <;> simp
  | some v =>
    cases hb : lookupRec k b <;> simp [hb]

@[simp] theorem mergeRec_nil_left {α : Type u} (b : Rec α) :
    mergeRec [] b = b := by
  unfold mergeRec
  simp [List.filter_eq_self]

@[simp] theorem mergeRec_nil_right {α : Type u} (a : Rec α) :
    mergeRec a [] = a := by
  unfold mergeRec
  simp

/-! ## Mapping-characterization lemmas -/

theorem lookupRec_initializePluginsEagerAux {α : Type u} {ω : Type v}
    (plugins : List (UIPlugin α ω)) (k : String) :
    ∀ (index : Nat) (data : BasePluginData (Rec α)),
      lookupRec k (initializePluginsEagerAux plugins index data) =
        (lastTransformValue plugins index k).or (lookupRec k data) := by
  induction plugins with
  | nil => intro index data; simp [initializePluginsEagerAux, lastTransformValue]
  | cons plugin rest ih =>
    intro index data
    cases hf : plugin.transformData with
    | none =>
      simp [initializePluginsEagerAux, lastTransformValue, hf, ih]
    | some f =>
      simp only [initializePluginsEagerAux, lastTransformValue, hf, ih,
        setKey, lookupRec_cons]
      by_cases hk : getPluginName plugin index = k
      · simp [hk, Option.or_assoc]
      · simp [hk, Option.or_assoc]

/-- The published eager mapping at identity `k` is exactly the value of
the last plugin with that identity and a defined `transformData`. -/
theorem lookupRec_initializePluginsEager {α : Type u} {ω : Type v}
    (plugins : List (UIPlugin α ω)) (k : String) :
    lookupRec k (initializePluginsEager plugins) =
      lastTransformValue plugins 0 k := by
  rw [initializePluginsEager, lookupRec_initializePluginsEagerAux]
  simp

theorem isSome_lastTransformValue {α : Type u} {ω : Type v}
    (plugins : List (UIPlugin α ω)) (k : String) :
    ∀ index : Nat,
      (lastTransformValue plugins index k).isSome =
        anyTransformNamed plugins index k := by
  induction plugins with
  | nil => intro index; simp [lastTransformValue, anyTransformNamed]
  | cons plugin rest ih =>
    intro index
    cases hf : plugin.transformData with
    | none =>
      simp [lastTransformValue, anyTransformNamed, hf, ih]
    | some f =>
      by_cases hk : getPluginName plugin index = k <;>
        simp [lastTransformValue, anyTransformNamed, hf, hk, ih,
          Bool.or_comm]

/-! ## Relating the eager and descriptor variants -/

theorem storeRel_initAux {α : Type u} {ω : Type v} :
    ∀ (plugins : List (UIPlugin α ω)) (index : Nat)
      (dataE : BasePluginData (Rec α))
      (dataD : BasePluginData (UIPlugin α ω)),
      (∀ k, StoreRel (lookupRec k dataE) (lookupRec k dataD)) →
      ∀ k, StoreRel (lookupRec k (initializePluginsEagerAux plugins index dataE))
        (lookupRec k (initializePluginsDescrAux plugins index dataD)) := by
  intro plugins
  induction plugins with
  | nil =>
    intro index dataE dataD h k
    simpa [initializePluginsEagerAux, initializePluginsDescrAux] using h k
  | cons plugin rest ih =>
    intro index dataE dataD h k
    cases hf : plugin.transformData with
    | none =>
      simp only [initializePluginsEagerAux, initializePluginsDescrAux, hf]
      exact ih (index + 1) dataE dataD h k
    | some f =>
      simp only [initializePluginsEagerAux, initializePluginsDescrAux, hf]
      refine ih (index + 1) _ _ ?_ k
      intro k'
      by_cases hk : getPluginName plugin index = k'
      · simp only [setKey, lookupRec_cons, hk, if_pos rfl]
        exact ⟨f, hf, rfl⟩
      · simpa [setKey, hk] using h k'

/-- The two refresh variants agree pointwise on every identity. -/
theorem storeRel_initializePlugins {α : Type u} {ω : Type v}
    (plugins : List (UIPlugin α ω)) (k : String) :
    StoreRel (lookupRec k (initializePluginsEager plugins))
      (lookupRec k (initializePluginsDescr plugins)) := by
  refine storeRel_initAux plugins 0 [] [] ?_ k
  intro k'
  simp [StoreRel]

theorem renderAux_of_storeRel {α : Type u} {ω : Type v}
    (dataE : BasePluginData (Rec α)) (dataD : BasePluginData (UIPlugin α ω))
    (hrel : ∀ k, StoreRel (lookupRec k dataE) (lookupRec k dataD)) :
    ∀ (plugins : List (UIPlugin α ω)) (index : Nat),
      renderPluginsCacheAux dataD none plugins index =
        some (renderPluginsEagerAux dataE plugins index) := by
  intro plugins
  induction plugins with
  | nil => intro index; simp [renderPluginsCacheAux, renderPluginsEagerAux]
  | cons plugin rest ih =>
    intro index
    have h := hrel (getPluginName plugin index)
    have hnode : renderPluginDataCache dataD plugin index none =
        some (renderPluginDataEager dataE plugin index) := by
      cases hD : lookupRec (getPluginName plugin index) dataD with
      | none =>
        cases hE : lookupRec (getPluginName plugin index) dataE with
        | none =>
          simp [renderPluginDataCache, renderPluginDataEager, hD, hE]
        | some d => rw [hD, hE] at h; exact absurd h (by simp [StoreRel])
      | some q =>
        cases hE : lookupRec (getPluginName plugin index) dataE with
        | none => rw [hD, hE] at h; exact absurd h (by simp [StoreRel])
        | some d =>
          rw [hD, hE] at h
          obtain ⟨f, hf, hd⟩ := h
          simp [renderPluginDataCache, renderPluginDataEager, hD, hE, hf, hd]
    simp [renderPluginsCacheAux, renderPluginsEagerAux, hnode, ih]

/-! ## Fragment-key and initial-render lemmas -/

theorem renderPluginsEagerAux_keys {α : Type u} {ω : Type v}
    (pluginData : BasePluginData (Rec α)) :
    ∀ (plugins : List (UIPlugin α ω)) (index : Nat),
      (renderPluginsEagerAux pluginData plugins index).map Fragment.key =
        (List.range' index plugins.length).map getPluginPrefix := by
  intro plugins
  induction plugins with
  | nil => intro index; simp [renderPluginsEagerAux]
  | cons plugin rest ih =>
    intro index
    simp [renderPluginsEagerAux, List.range'_succ, ih]

theorem renderPluginsEagerAux_empty {α : Type u} {ω : Type v} :
    ∀ (plugins : List (UIPlugin α ω)) (index : Nat),
      renderPluginsEagerAux ([] : BasePluginData (Rec α)) plugins index =
        (plugins.enumFrom index).map
          (fun ip => ⟨getPluginPrefix ip.1, ip.2.render []⟩) := by
  intro plugins
  induction plugins with
  | nil => intro index; simp [renderPluginsEagerAux]
  | cons plugin rest ih =>
    intro index
    simp [renderPluginsEagerAux, List.enumFrom, ih, renderPluginDataEager]

/-! ## Error-propagation lemma for the refresh loop -/

theorem initEagerEAux_error {α : Type u} {ω : Type v}
    (plugin : UIPluginE α ω) (post : List (UIPluginE α ω))
    (f : Unit → Except String (Rec α)) (e : String)
    (hf : plugin.transformData = some f) (he : f () = Except.error e) :
    ∀ (pre : List (UIPluginE α ω)) (index : Nat)
      (data : BasePluginData (Rec α)),
      (∀ q ∈ pre, ∀ g, q.transformData = some g →
        ∃ w, g () = Except.ok w) →
      initializePluginsEagerEAux (pre ++ plugin :: post) index data =
        Except.error e := by
  intro pre
  induction pre with
  | nil =>
    intro index data _
    simp [initializePluginsEagerEAux, hf, he]
  | cons q rest ih =>
    intro index data hpre
    cases hq : q.transformData with
    | none =>
      simp only [List.cons_append, initializePluginsEagerEAux, hq]
      exact ih (index + 1) data (fun r hr => hpre r (List.mem_cons_of_mem q hr))
    | some g =>
      obtain ⟨w, hw⟩ := hpre q (List.mem_cons_self q rest) g hq
      simp only [List.cons_append, initializePluginsEagerEAux, hq, hw]
      exact ih (index + 1) _ (fun r hr => hpre r (List.mem_cons_of_mem q hr))

/-! ## Claims -/

/-- C1: if some plugin's `transformData` throws during a refresh (the
plugins before it in sequence order having succeeded), the exception
propagates synchronously to the caller of the refresh, and the session
state observable at render time equals the state from before the failed
refresh — nothing computed for earlier plugins in the pass is published,
because the single `setPageData` at the end of the effect is never
reached. -/
theorem c1_refresh_throw_propagates_and_publishes_nothing
    {α : Type u} {ω : Type v}
    (pre post : List (UIPluginE α ω)) (plugin : UIPluginE α ω)
    (f : Unit → Except String (Rec α)) (e : String)
    (hpre : ∀ q ∈ pre, ∀ g, q.transformData = some g →
      ∃ w, g () = Except.ok w)
    (hf : plugin.transformData = some f) (he : f () = Except.error e)
    (s : SessionState α) :
    runRefresh (ω := ω) (pre ++ plugin :: post) = Except.error e ∧
      observedAfterRefresh (ω := ω) (pre ++ plugin :: post) s = s := by
  have herr : initializePluginsEagerE (ω := ω) (pre ++ plugin :: post) =
      Except.error e :=
    initEagerEAux_error plugin post f e hf he pre 0 [] hpre
  constructor
  · simp [runRefresh, herr]
  · simp [observedAfterRefresh, runRefresh, herr]

/-- Witness for C1, the spec's scenario: three plugins, the second
throws; the refresh surfaces the error and the previously published
nonempty mapping is untouched. -/
theorem c1_refresh_throw_propagates_and_publishes_nothing_witness :
    runRefresh (ω := String) [exEPluginOk, exEPluginBoom, exEPluginOk2] =
        Except.error "boom" ∧
      observedAfterRefresh (ω := String)
        [exEPluginOk, exEPluginBoom, exEPluginOk2] exOldState = exOldState :=
  c1_refresh_throw_propagates_and_publishes_nothing
    [exEPluginOk] [exEPluginOk2] exEPluginBoom
    (fun _ => Except.error "boom") "boom"
    (by
      intro q hq g hg
      have hq' : q = exEPluginOk := by simpa using hq
      subst hq'
      refine ⟨[("v", 1)], ?_⟩
      have : (fun _ : Unit => Except.ok (ε := String) [("v", 1)]) = g := by
        simpa [exEPluginOk] using hg
      simp [← this])
    rfl rfl exOldState

/-- C2 counterexample: for a single plugin named `"A"`, the fragment's
reconciliation key is `"ui-plugin-0"` (the positional synthesized form),
not the resolved identity `"A"` — the code keys fragments by
`getPluginPrefix(index)` even when a name is present. -/
theorem c2_key_is_positional_not_name_cex :
    (renderPluginsEager (initializePluginsEager [exPluginA])
        [exPluginA]).map Fragment.key = ["ui-plugin-0"] ∧
      getPluginName exPluginA 0 = "A" ∧
      ("ui-plugin-0" : String) ≠ "A" := by
  refine ⟨by decide, by decide, by decide⟩

/-- C2 (amended): every fragment produced by `renderPlugins` is keyed by
the positional synthesized form `"ui-plugin-<index>"`
(`getPluginPrefix index`), regardless of the plugin's name. -/
theorem c2_keys_are_positional {α : Type u} {ω : Type v}
    (pluginData : BasePluginData (Rec α)) (plugins : List (UIPlugin α ω)) :
    (renderPluginsEager pluginData plugins).map Fragment.key =
      (List.range plugins.length).map getPluginPrefix := by
  rw [renderPluginsEager, renderPluginsEagerAux_keys, List.range_eq_range']

/-- C3: with pure `transformData`, the lazy-descriptor pipeline (store
the descriptor at refresh, call `transformData` at render time) renders
exactly the fragment sequence of the eager pipeline (store the
`transformData()` result at refresh, pass it straight to `render`) — and
in particular never hits the undefined-call crash. -/
theorem c3_eager_and_lazy_variants_equivalent {α : Type u} {ω : Type v}
    (plugins : List (UIPlugin α ω)) :
    renderPluginsCache (initializePluginsDescr plugins) plugins none =
      some (renderPluginsEager (initializePluginsEager plugins) plugins) :=
  renderAux_of_storeRel _ _ (fun k => storeRel_initializePlugins plugins k)
    plugins 0

/-- C4 counterexample: the earlier `createUIPlugin` destructures only
`{transformData, render}`, so for a named descriptor the result is not
the input — its `name` is absent. -/
theorem c4_createUIPlugin_drops_name_cex :
    createUIPluginV1 exPluginNoTd ≠ exPluginNoTd ∧
      (createUIPluginV1 exPluginNoTd).name = none ∧
      exPluginNoTd.name = some "A" := by
  refine ⟨?_, rfl, rfl⟩
  intro h
  have hname := congrArg UIPlugin.name h
  simp [createUIPluginV1, exPluginNoTd] at hname

/-- C4 (amended): the later `createUIPlugin` variant is the identity —
`name`, `transformData` and `render` all pass through unchanged; the
earlier variant (and `unnamed/part_000`) passes `transformData` and
`render` through unchanged but drops `name` (the result's `name` is
always absent). -/
theorem c4_createUIPlugin_field_passthrough {α : Type u} {ω : Type v}
    (d : UIPlugin α ω) :
    createUIPluginV2 d = d ∧
      (createUIPluginV1 d).transformData = d.transformData ∧
      (createUIPluginV1 d).render = d.render ∧
      (createUIPluginV1 d).name = none := by
  refine ⟨?_, rfl, rfl, rfl⟩
  cases d
  rfl

/-- C5: when the cache holds a descriptor for the plugin's identity whose
`transformData` yields the derived data, `renderPluginData` calls
`plugin.render` on the spread `{...derivedData, ...props}`, and on every
key the override's value wins over the derived value. -/
theorem c5_override_props_win {α : Type u} {ω : Type v}
    (pluginCache : BasePluginData (UIPlugin α ω))
    (plugin pluginObj : UIPlugin α ω) (index : Nat)
    (f : Unit → Rec α) (props : Rec α)
    (hq : lookupRec (getPluginName plugin index) pluginCache = some pluginObj)
    (hf : pluginObj.transformData = some f) :
    renderPluginDataCache pluginCache plugin index (some props) =
        some (plugin.render (mergeRec (f ()) props)) ∧
      ∀ k, lookupRec k (mergeRec (f ()) props) =
        (lookupRec k props).or (lookupRec k (f ())) := by
  constructor
  · simp [renderPluginDataCache, hq, hf]
  · intro k
    exact lookupRec_mergeRec k (f ()) props

/-- Witness for C5, the spec's example: derived data
`{title: "Y", body: "Z"}` with override `{title: "X"}` renders with
`title = "X"` and `body = "Z"`. -/
theorem c5_override_props_win_witness :
    renderPluginDataCache (initializePluginsDescr [exPluginTitle])
        exPluginTitle 0 (some [("title", "X")]) =
      some (exPluginTitle.render
        (mergeRec [("title", "Y"), ("body", "Z")] [("title", "X")])) ∧
    lookupRec "title"
        (mergeRec [("title", "Y"), ("body", "Z")] [("title", "X")]) =
      some "X" ∧
    lookupRec "body"
        (mergeRec [("title", "Y"), ("body", "Z")] [("title", "X")]) =
      some "Z" :=
  ⟨(c5_override_props_win (initializePluginsDescr [exPluginTitle])
      exPluginTitle exPluginTitle 0
      (fun _ => [("title", "Y"), ("body", "Z")]) [("title", "X")]
      rfl rfl).1,
    by decide, by decide⟩

/-- C6 counterexample: with two plugins sharing the name `"A"`, the first
with `transformData` and the second without, the refreshed mapping does
hold an entry under the second plugin's resolved identity, although that
plugin lacks `transformData` — so "plugins without transformData have no
entry" fails as stated. -/
theorem c6_entry_for_transformless_plugin_cex :
    exPluginNoTd.transformData = none ∧
      getPluginName exPluginNoTd 1 = "A" ∧
      (lookupRec "A"
        (initializePluginsEager [exPluginA, exPluginNoTd])).isSome = true := by
  refine ⟨rfl, by decide, by decide⟩

/-- C6 (amended): after a refresh, the derived-data mapping has an entry
under identity `k` exactly when some plugin with a defined
`transformData` resolves to `k`; in particular every plugin with
`transformData` has an entry under its identity, and a plugin without
`transformData` has one only when it shares its identity with a
`transformData`-bearing plugin. -/
theorem c6_mapping_domain {α : Type u} {ω : Type v}
    (plugins : List (UIPlugin α ω)) (k : String) :
    (lookupRec k (initializePluginsEager plugins)).isSome =
      anyTransformNamed plugins 0 k := by
  rw [lookupRec_initializePluginsEager, isSome_lastTransformValue]

/-- C7: a plugin whose resolved identity has no entry in the derived-data
mapping is rendered with the defined empty record `{}` — in the eager
variant via the `|| {}` fallback, and in the cache variant via the spread
of an undefined `transformData()` result; `render` never receives an
undefined value. -/
theorem c7_missing_entry_renders_empty_record {α : Type u} {ω : Type v}
    (pluginData : BasePluginData (Rec α))
    (pluginCache : BasePluginData (UIPlugin α ω))
    (plugin : UIPlugin α ω) (index : Nat) :
    (lookupRec (getPluginName plugin index) pluginData = none →
      renderPluginDataEager pluginData plugin index = plugin.render []) ∧
    (lookupRec (getPluginName plugin index) pluginCache = none →
      renderPluginDataCache pluginCache plugin index none =
        some (plugin.render [])) := by
  constructor
  · intro h
    simp [renderPluginDataEager, h]
  · intro h
    simp [renderPluginDataCache, h]

/-- Witness for C7: a plugin with no `transformData` gets no entry from
the refresh, and both render paths hand `render` the empty record. -/
theorem c7_missing_entry_renders_empty_record_witness :
    renderPluginDataEager (initializePluginsEager [exPluginB])
        exPluginB 0 = exPluginB.render [] ∧
      renderPluginDataCache (initializePluginsDescr [exPluginB])
        exPluginB 0 none = some (exPluginB.render []) :=
  ⟨(c7_missing_entry_renders_empty_record
      (initializePluginsEager [exPluginB])
      (initializePluginsDescr [exPluginB]) exPluginB 0).1 rfl,
    (c7_missing_entry_renders_empty_record
      (initializePluginsEager [exPluginB])
      (initializePluginsDescr [exPluginB]) exPluginB 0).2 rfl⟩

/-- C8: `getPluginName` returns the plugin's name verbatim — and
independently of the index — whenever the name is a non-empty string,
and returns `"ui-plugin-" ++ index` when the name is absent or empty;
it is a total function with no failure mode. -/
theorem c8_getPluginName_resolution {α : Type u} {ω : Type v}
    (plugin : UIPlugin α ω) (i j : Nat) :
    (∀ s, plugin.name = some s → s ≠ "" →
      getPluginName plugin i = s ∧ getPluginName plugin j = s) ∧
    ((plugin.name = none ∨ plugin.name = some "") →
      getPluginName plugin i = "ui-plugin-" ++ toString i) := by
  have hpre : ∀ n : Nat, getPluginPrefix n = "ui-plugin-" ++ toString n := by
    intro n
    rfl
  constructor
  · intro s hs hne
    constructor <;> simp [getPluginName, strOrElse, hs, hne]
  · rintro (h | h) <;> simp [getPluginName, strOrElse, h, hpre]

/-- Witness for C8: a plugin named `"A"` resolves to `"A"` at two
different indices; an anonymous plugin at position 1 resolves to
`"ui-plugin-1"`. -/
theorem c8_getPluginName_resolution_witness :
    getPluginName exPluginA 0 = "A" ∧
      getPluginName exPluginA 5 = "A" ∧
      getPluginName exPluginNoName 1 = "ui-plugin-" ++ toString 1 :=
  ⟨((c8_getPluginName_resolution exPluginA 0 5).1 "A" rfl (by decide)).1,
    ((c8_getPluginName_resolution exPluginA 0 5).1 "A" rfl (by decide)).2,
    (c8_getPluginName_resolution exPluginNoName 1 0).2 (Or.inl rfl)⟩

/-- C9: name collisions resolve last-wins — the refreshed mapping at
identity `k` is exactly the `transformData()` value of the last plugin
in sequence order resolving to `k` with a defined `transformData`, and
every plugin resolving to `k` is rendered with that single shared value. -/
theorem c9_collision_last_wins {α : Type u} {ω : Type v}
    (plugins : List (UIPlugin α ω)) (k : String) :
    lookupRec k (initializePluginsEager plugins) =
        lastTransformValue plugins 0 k ∧
      ∀ (plugin : UIPlugin α ω) (index : Nat),
        getPluginName plugin index = k →
          renderPluginDataEager (initializePluginsEager plugins)
              plugin index =
            plugin.render ((lastTransformValue plugins 0 k).getD []) := by
  refine ⟨lookupRec_initializePluginsEager plugins k, ?_⟩
  intro plugin index h
  rw [renderPluginDataEager, h, lookupRec_initializePluginsEager]

/-- Witness for C9: two plugins both named `"A"` producing `{v: 1}` and
`{v: 3}`; the mapping holds `{v: 3}` and the first plugin also renders
with `{v: 3}`. -/
theorem c9_collision_last_wins_witness :
    lookupRec "A" (initializePluginsEager [exPluginA, exPluginA2]) =
        lastTransformValue [exPluginA, exPluginA2] 0 "A" ∧
      renderPluginDataEager (initializePluginsEager [exPluginA, exPluginA2])
          exPluginA 0 =
        exPluginA.render
          ((lastTransformValue [exPluginA, exPluginA2] 0 "A").getD []) ∧
      lastTransformValue [exPluginA, exPluginA2] 0 "A" = some [("v", 3)] :=
  ⟨(c9_collision_last_wins [exPluginA, exPluginA2] "A").1,
    (c9_collision_last_wins [exPluginA, exPluginA2] "A").2 exPluginA 0
      (by decide),
    by decide⟩

/-- C10: in the initial session state, before the first refresh effect
has run, the derived-data mapping is the empty record from `useState`,
so `renderPlugins` renders every plugin — including those with a defined
`transformData` — with the empty record; with override props supplied,
the cache-variant render receives exactly the props (the empty record
merged with the props). -/
theorem c10_initial_render_uses_empty_data {α : Type u} {ω : Type v}
    (plugins : List (UIPlugin α ω)) (plugin : UIPlugin α ω) (index : Nat)
    (props : Rec α) :
    renderPluginsEager ([] : BasePluginData (Rec α)) plugins =
        (plugins.enum).map
          (fun ip => ⟨getPluginPrefix ip.1, ip.2.render []⟩) ∧
      renderPluginDataCache ([] : BasePluginData (UIPlugin α ω))
          plugin index (some props) = some (plugin.render props) := by
  constructor
  · rw [renderPluginsEager, renderPluginsEagerAux_empty]
    rfl
  · simp [renderPluginDataCache]

end ReactUIPlugins

